import Mathlib

/-!
Verification of the FrankStack `frank-ops-aws` scripts.

The repository holds three short Python scripts:
  * `lambda_hello.py` — a strict Lambda handler that echoes the
    `correlationID` and `message` fields of its event, using subscript
    lookups that raise `KeyError` on a missing key;
  * `send_hello_batch.py` — a logging variant of the same handler that
    prints the event and uses `dict.get`, so missing keys become `None`;
  * `lambda_boto3_test.py` — an invoker that creates the function on a
    local emulator (catching the resource-conflict signal) and invokes it
    with a JSON payload.

Python dictionaries are embedded as association lists keyed by strings,
with lookups returning the first binding; dictionary values are a small
closed universe (`Value`) sufficient for the events these scripts handle.
-/

/-- A Python value stored in an event mapping: a string, `None`, or an
integer (integers stand in for the arbitrary extra fields an event may
carry). -/
inductive Value where
  | str : String → Value
  | null : Value
  | int : Int → Value
deriving DecidableEq

/-- A Python exception raised by these scripts: only `KeyError(k)`. -/
inductive PyError where
  | keyError : String → PyError
deriving DecidableEq

/-- A Python dict with string keys, as an association list; lookups return
the first binding, so prepending a pair acts as `d[k] = v`. -/
abbrev Dict := List (String × Value)

/-- Python subscript `d[k]`: the binding of `k`, or `KeyError(k)` when the
key is absent. -/
def getItem (d : Dict) (k : String) : Except PyError Value :=
  match List.lookup k d with
  | some v => Except.ok v
  | none => Except.error (PyError.keyError k)

/-- Python `d.get(k)` (no explicit default): the binding of `k`, or `None`
when the key is absent. -/
def getDefault (d : Dict) (k : String) : Value :=
  (List.lookup k d).getD Value.null

namespace LambdaHello

/-- `handler(event, context)` from `lambda_hello.py`: builds
`\x7b"correlationID": event["correlationID"], "message": event["message"]\x7d`,
evaluating the `correlationID` subscript first (dict literals evaluate
left to right).  The returned pair carries, next to the result or raised
error, the final state of the `event` dict: subscript reads leave it
unchanged, which the explicit threading records. -/
def handler {α : Type} (event : Dict) (ctx : α) : Except PyError Dict × Dict :=
  match getItem event "correlationID" with
  | Except.error e => (Except.error e, event)
  | Except.ok c =>
    match getItem event "message" with
    | Except.error e => (Except.error e, event)
    | Except.ok m => (Except.ok [("correlationID", c), ("message", m)], event)

end LambdaHello

namespace SendHelloBatch

/-- Everything observable about one call of the logging handler: the
events echoed by `print`, the returned mapping, and the final state of
the `event` dict. -/
structure HandlerRun where
  printed : List Dict
  result : Dict
  finalEvent : Dict
deriving DecidableEq

/-- `handler(event, context)` from `send_hello_batch.py`: prints the
event, then returns
`\x7b"correlationID": event.get("correlationID"), "message": event.get("message")\x7d`;
`dict.get` yields `None` for absent keys, so the call never raises. -/
def handler {α : Type} (event : Dict) (ctx : α) : HandlerRun :=
  { printed := [event]
  , result := [("correlationID", getDefault event "correlationID"),
               ("message", getDefault event "message")]
  , finalEvent := event }

/-- The module-level `payload` constant shared by `send_hello_batch.py`
and `lambda_boto3_test.py`:
`\x7b"message": "hello world", "correlationID": "123"\x7d`. -/
def payload : Dict :=
  [("message", Value.str "hello world"), ("correlationID", Value.str "123")]

end SendHelloBatch

namespace LambdaBoto3Test

/-- Outcome of one `create_function` call as the invoker script observes
it: success, the `ResourceConflictException` signal, or any other
failure. -/
inductive CreateOutcome where
  | created
  | resourceConflict
  | otherError : String → CreateOutcome
deriving DecidableEq

/-- Modelled from the spec: the external Lambda control-plane
`create_function` call, which these scripts only invoke.  Per the spec it
creates the named function resource, keyed by name, and "returns success
or a resource-already-exists signal"; the function store is the list of
existing function names. -/
def create_function (functions : List String) (name : String) :
    CreateOutcome × List String :=
  if name ∈ functions then (CreateOutcome.resourceConflict, functions)
  else (CreateOutcome.created, name :: functions)

/-- The `try/except` around `create_function` in `lambda_boto3_test.py`:
`ResourceConflictException` is caught (the script prints
"Lambda helloLambda already exists, skipping creation" and continues);
any other failure is not caught and propagates. -/
def handleCreateOutcome : CreateOutcome → Except String Unit
  | CreateOutcome.created => Except.ok ()
  | CreateOutcome.resourceConflict => Except.ok ()
  | CreateOutcome.otherError msg => Except.error msg

/-- The invoker's "ensure function exists" step: call `create_function`
and run its outcome through the script's exception handling. -/
def ensureFunctionExists (functions : List String) (name : String) :
    Except String (List String) :=
  let r := create_function functions name
  match handleCreateOutcome r.1 with
  | Except.ok _ => Except.ok r.2
  | Except.error e => Except.error e

end LambdaBoto3Test

/-- C1: every event holding both `correlationID` and `message` makes the
strict handler return, and the logging handler produce as its result,
exactly the two-entry mapping copying those values verbatim — no extra
fields survive. -/
theorem claim_C1 {α : Type} (ctx : α) (event : Dict) (c m : Value)
    (hc : List.lookup "correlationID" event = some c)
    (hm : List.lookup "message" event = some m) :
    (LambdaHello.handler event ctx).1 =
      Except.ok [("correlationID", c), ("message", m)] ∧
    (SendHelloBatch.handler event ctx).result =
      [("correlationID", c), ("message", m)] := by
  constructor
  · simp [LambdaHello.handler, getItem, hc, hm]
  · simp [SendHelloBatch.handler, getDefault, hc, hm]

/-- Witness for C1 at the concrete event of the scripts, extended with an
extra field to exercise the "no extra fields" part. -/
theorem claim_C1_witness :
    (LambdaHello.handler
        (("extra", Value.int 7) :: SendHelloBatch.payload) ()).1 =
      Except.ok [("correlationID", Value.str "123"),
                 ("message", Value.str "hello world")] ∧
    (SendHelloBatch.handler
        (("extra", Value.int 7) :: SendHelloBatch.payload) ()).result =
      [("correlationID", Value.str "123"),
       ("message", Value.str "hello world")] :=
  claim_C1 () (("extra", Value.int 7) :: SendHelloBatch.payload)
    (Value.str "123") (Value.str "hello world") (by decide) (by decide)

/-- C2: the strict handler on the empty event raises a `KeyError`, and in
general it raises a `KeyError` whenever `correlationID` or `message` is
absent from the event. -/
theorem claim_C2 {α : Type} (ctx : α) (event : Dict)
    (h : List.lookup "correlationID" event = none ∨
         List.lookup "message" event = none) :
    (∃ k, (LambdaHello.handler ([] : Dict) ctx).1 =
        Except.error (PyError.keyError k)) ∧
    ∃ k, (LambdaHello.handler event ctx).1 =
        Except.error (PyError.keyError k) := by
  refine ⟨⟨"correlationID", by simp [LambdaHello.handler, getItem]⟩, ?_⟩
  rcases h with h | h
  · exact ⟨"correlationID", by simp [LambdaHello.handler, getItem, h]⟩
  · rcases hc : List.lookup "correlationID" event with _ | v
    · exact ⟨"correlationID", by simp [LambdaHello.handler, getItem, hc]⟩
    · exact ⟨"message", by simp [LambdaHello.handler, getItem, hc, h]⟩

/-- Witness for C2 at an event carrying only `message`. -/
theorem claim_C2_witness :
    (∃ k, (LambdaHello.handler ([] : Dict) ()).1 =
        Except.error (PyError.keyError k)) ∧
    ∃ k, (LambdaHello.handler
        ([("message", Value.str "hi")] : Dict) ()).1 =
        Except.error (PyError.keyError k) :=
  claim_C2 () [("message", Value.str "hi")] (Or.inl (by decide))

/-- C3: the logging handler on the empty event does not raise and returns
`\x7b"correlationID": None, "message": None\x7d`; in general each of the two
keys absent from the event comes back bound to `None` in the result. -/
theorem claim_C3 {α : Type} (ctx : α) (event : Dict) (k : String)
    (hk : k = "correlationID" ∨ k = "message")
    (habsent : List.lookup k event = none) :
    (SendHelloBatch.handler ([] : Dict) ctx).result =
      [("correlationID", Value.null), ("message", Value.null)] ∧
    List.lookup k (SendHelloBatch.handler event ctx).result =
      some Value.null := by
  refine ⟨by simp [SendHelloBatch.handler, getDefault], ?_⟩
  rcases hk with rfl | rfl
  · simp [SendHelloBatch.handler, getDefault, habsent]
  · simp only [SendHelloBatch.handler, getDefault, habsent, Option.getD_none]
    rfl

/-- Witness for C3 at an event lacking `correlationID`. -/
theorem claim_C3_witness :
    (SendHelloBatch.handler ([] : Dict) ()).result =
      [("correlationID", Value.null), ("message", Value.null)] ∧
    List.lookup "correlationID"
      (SendHelloBatch.handler
        ([("message", Value.str "hi")] : Dict) ()).result =
      some Value.null :=
  claim_C3 () [("message", Value.str "hi")] "correlationID"
    (Or.inl rfl) (by decide)

/-- C4: the "ensure function exists" step is idempotent — run twice with
the same name from any starting store, both runs succeed (the second
hits the conflict signal, which the script catches) — while any other
creation failure passes through the script's exception handling as a
fatal error. -/
theorem claim_C4 (functions : List String) (name : String) :
    (∃ fs1, LambdaBoto3Test.ensureFunctionExists functions name =
        Except.ok fs1 ∧
      ∃ fs2, LambdaBoto3Test.ensureFunctionExists fs1 name =
        Except.ok fs2) ∧
    ∀ msg, LambdaBoto3Test.handleCreateOutcome
        (LambdaBoto3Test.CreateOutcome.otherError msg) =
      Except.error msg := by
  refine ⟨?_, fun _ => rfl⟩
  by_cases h : name ∈ functions
  · exact ⟨functions,
      by simp [LambdaBoto3Test.ensureFunctionExists,
               LambdaBoto3Test.create_function, LambdaBoto3Test.handleCreateOutcome, h],
      functions,
      by simp [LambdaBoto3Test.ensureFunctionExists,
               LambdaBoto3Test.create_function, LambdaBoto3Test.handleCreateOutcome, h]⟩
  · refine ⟨name :: functions,
      by simp [LambdaBoto3Test.ensureFunctionExists,
               LambdaBoto3Test.create_function, LambdaBoto3Test.handleCreateOutcome, h],
      name :: functions,
      by simp [LambdaBoto3Test.ensureFunctionExists,
               LambdaBoto3Test.create_function, LambdaBoto3Test.handleCreateOutcome]⟩

/-- C5: on the event `\x7b"message": "hello world", "correlationID": "123"\x7d`
the handler returns exactly
`\x7b"correlationID": "123", "message": "hello world"\x7d`. -/
theorem claim_C5 :
    (LambdaHello.handler SendHelloBatch.payload ()).1 =
      Except.ok [("correlationID", Value.str "123"),
                 ("message", Value.str "hello world")] := rfl

/-- C7: the context argument is unused — on any event, both handler
variants produce identical outcomes (results, errors, prints and final
event state alike) under any two context values. -/
theorem claim_C7 {α : Type} (event : Dict) (c1 c2 : α) :
    LambdaHello.handler event c1 = LambdaHello.handler event c2 ∧
    SendHelloBatch.handler event c1 = SendHelloBatch.handler event c2 :=
  ⟨rfl, rfl⟩

/-- C8: neither handler mutates its input — after any call, the final
state of the `event` dict equals the dict passed in, whether the strict
handler returns or raises. -/
theorem claim_C8 {α : Type} (event : Dict) (ctx : α) :
    (LambdaHello.handler event ctx).2 = event ∧
    (SendHelloBatch.handler event ctx).finalEvent = event := by
  refine ⟨?_, rfl⟩
  unfold LambdaHello.handler
  rcases getItem event "correlationID" with _ | c
  · rfl
  · rcases getItem event "message" with _ | m <;> rfl

/-- C9: the logging handler cannot tell an absent key from a key bound to
`None` — for either of the two projected keys, when `k` is absent from
the event, binding `k` to `None` leaves the handler's result unchanged. -/
theorem claim_C9 {α : Type} (ctx : α) (event : Dict) (k : String)
    (hk : k = "correlationID" ∨ k = "message")
    (habsent : List.lookup k event = none) :
    (SendHelloBatch.handler event ctx).result =
      (SendHelloBatch.handler ((k, Value.null) :: event) ctx).result := by
  rcases hk with rfl | rfl
  · simp [SendHelloBatch.handler, getDefault, habsent, List.lookup]
  · rcases hc : List.lookup "correlationID" event with _ | v <;>
      simp [SendHelloBatch.handler, getDefault, habsent, hc, List.lookup]

/-- Witness for C9 at an event lacking `message`. -/
theorem claim_C9_witness :
    (SendHelloBatch.handler
        ([("correlationID", Value.str "123")] : Dict) ()).result =
      (SendHelloBatch.handler
        (("message", Value.null) :: [("correlationID", Value.str "123")]) ()).result :=
  claim_C9 () [("correlationID", Value.str "123")] "message"
    (Or.inr rfl) (by decide)

/-- C10: the strict handler's `correlationID` lookup runs first — any
event lacking `correlationID` raises `KeyError("correlationID")` whether
or not `message` is present, and any event holding `correlationID` but
lacking `message` raises `KeyError("message")`. -/
theorem claim_C10 {α : Type} (ctx : α) (event : Dict) :
    (List.lookup "correlationID" event = none →
      (LambdaHello.handler event ctx).1 =
        Except.error (PyError.keyError "correlationID")) ∧
    ∀ v, List.lookup "correlationID" event = some v →
      List.lookup "message" event = none →
      (LambdaHello.handler event ctx).1 =
        Except.error (PyError.keyError "message") := by
  constructor
  · intro h
    simp [LambdaHello.handler, getItem, h]
  · intro v hv hm
    simp [LambdaHello.handler, getItem, hv, hm]

/-- Witness for C10: the first part at an event holding only `message`,
the second at an event holding only `correlationID`. -/
theorem claim_C10_witness :
    ((LambdaHello.handler ([("message", Value.str "hi")] : Dict) ()).1 =
        Except.error (PyError.keyError "correlationID")) ∧
    (LambdaHello.handler ([("correlationID", Value.str "123")] : Dict) ()).1 =
        Except.error (PyError.keyError "message") :=
  ⟨(claim_C10 () [("message", Value.str "hi")]).1 (by decide),
   (claim_C10 () [("correlationID", Value.str "123")]).2
     (Value.str "123") (by decide) (by decide)⟩

namespace PyJson

/-- The invocation payload of `lambda_boto3_test.py`: a flat mapping with
the two string fields `message` and `correlationID`. -/
structure Payload where
  message : String
  correlationID : String
deriving DecidableEq

/-- Lower-case hexadecimal digit character for `n < 16`. -/
def hexDig (n : Nat) : Char :=
  if n < 10 then Char.ofNat (48 + n) else Char.ofNat (87 + n)

/-- Numeric value of a hexadecimal digit character, if it is one. -/
def hexVal (c : Char) : Option Nat :=
  if 48 <= c.toNat && c.toNat <= 57 then some (c.toNat - 48)
  else if 97 <= c.toNat && c.toNat <= 102 then some (c.toNat - 87)
  else if 65 <= c.toNat && c.toNat <= 70 then some (c.toNat - 55)
  else none

/-- One character of a JSON string body as `json.dumps` emits it: quote
and backslash get a backslash escape, the named control characters get
their short escapes, the remaining C0 controls become `\u00XX`, and every
other character stands for itself (the `ensure_ascii=False` form of the
encoder; ASCII-escaping non-ASCII characters would not change the
round-trip behaviour this development checks). -/
def escapeChar (c : Char) : List Char :=
  if c = '"' then ['\\', '"']
  else if c = '\\' then ['\\', '\\']
  else if c = '\n' then ['\\', 'n']
  else if c = '\t' then ['\\', 't']
  else if c = '\r' then ['\\', 'r']
  else if c = Char.ofNat 8 then ['\\', 'b']
  else if c = Char.ofNat 12 then ['\\', 'f']
  else if c.toNat < 32 then
    ['\\', 'u', '0', '0', hexDig (c.toNat / 16), hexDig (c.toNat % 16)]
  else [c]

/-- A whole string body, escaped character by character. -/
def escapeList : List Char → List Char
  | [] => []
  | c :: cs => escapeChar c ++ escapeList cs

/-- A JSON string literal: opening quote, escaped body, closing quote. -/
def encodeString (s : String) : List Char :=
  '"' :: (escapeList s.data ++ ['"'])

/-- `json.dumps(payload)` on the two-field payload, with the default
separators: `\x7b"message": <m>, "correlationID": <c>\x7d`. -/
def dumps (p : Payload) : String :=
  String.mk ("\x7b\"message\": ".data ++ encodeString p.message
    ++ ", \"correlationID\": ".data ++ encodeString p.correlationID
    ++ "\x7d".data)

/-- Short escape `\e` back to the character it stands for. -/
def unescapeChar (e : Char) : Option Char :=
  if e = '"' then some '"'
  else if e = '\\' then some '\\'
  else if e = 'n' then some '\n'
  else if e = 't' then some '\t'
  else if e = 'r' then some '\r'
  else if e = 'b' then some (Char.ofNat 8)
  else if e = 'f' then some (Char.ofNat 12)
  else none

/-- Read a JSON string body up to its closing quote, undoing the escapes;
yields the body and the unconsumed remainder. -/
def parseString : List Char → Option (List Char × List Char)
  | [] => none
  | '"' :: cs => some ([], cs)
  | '\\' :: 'u' :: a :: b :: c3 :: d :: cs3 =>
    match hexVal a, hexVal b, hexVal c3, hexVal d with
    | some va, some vb, some vc, some vd =>
      (parseString cs3).map (fun r =>
        (Char.ofNat (((va * 16 + vb) * 16 + vc) * 16 + vd) :: r.1, r.2))
    | _, _, _, _ => none
  | '\\' :: e :: cs2 =>
    match unescapeChar e with
    | some ch => (parseString cs2).map (fun r => (ch :: r.1, r.2))
    | none => none
  | '\\' :: [] => none
  | c :: cs => (parseString cs).map (fun r => (c :: r.1, r.2))

/-- Consume an expected literal run of characters, or fail. -/
def dropLit : List Char → List Char → Option (List Char)
  | [], cs => some cs
  | l :: ls, c :: cs => if c = l then dropLit ls cs else none
  | _ :: _, [] => none

/-- `json.loads` on the response text, restricted to the object layout
`dumps` emits (the scripts only ever decode what the handler echoed back
from such a payload): both fields in order, default separators, nothing
after the closing brace. -/
def loads (s : String) : Option Payload :=
  match dropLit "\x7b\"message\": \"".data s.data with
  | none => none
  | some cs0 =>
  match parseString cs0 with
  | none => none
  | some r1 =>
  match dropLit ", \"correlationID\": \"".data r1.2 with
  | none => none
  | some cs2 =>
  match parseString cs2 with
  | none => none
  | some r2 =>
  match dropLit "\x7d".data r2.2 with
  | none => none
  | some cs4 =>
  if cs4 = [] then some ⟨String.mk r1.1, String.mk r2.1⟩ else none

/-- A hexadecimal digit survives the encode/decode pair. -/
theorem hexVal_hexDig : ∀ n : Nat, n < 16 → hexVal (hexDig n) = some n := by
  decide

/-- A `\u00XX` escape with two hexadecimal digit characters parses back
to the character those digits denote. -/
theorem parseString_u (a b : Nat) (ha : a < 16) (hb : b < 16)
    (rest : List Char) :
    parseString ('\\' :: 'u' :: '0' :: '0' ::
        hexDig a :: hexDig b :: rest) =
      (parseString rest).map (fun r => (Char.ofNat (a * 16 + b) :: r.1, r.2)) := by
  interval_cases a <;> interval_cases b <;> rfl

/-- A character other than quote and backslash at the head of the input
parses as itself. -/
theorem parseString_other (c : Char) (h1 : c ≠ '"') (h2 : c ≠ '\\')
    (rest : List Char) :
    parseString (c :: rest) =
      (parseString rest).map (fun r => (c :: r.1, r.2)) := by
  simp [parseString, h1, h2]

/-- Escaping one character and parsing it back prepends exactly that
character to whatever the rest parses to. -/
theorem parseString_escapeChar (c : Char) (rest : List Char) :
    parseString (escapeChar c ++ rest) =
      (parseString rest).map (fun r => (c :: r.1, r.2)) := by
  unfold escapeChar
  split_ifs with h1 h2 h3 h4 h5 h6 h7 h8
  · subst h1; rfl
  · subst h2; rfl
  · subst h3; rfl
  · subst h4; rfl
  · subst h5; rfl
  · subst h6; rfl
  · subst h7; rfl
  · have hd : c.toNat / 16 < 16 := by omega
    have hm : c.toNat % 16 < 16 := Nat.mod_lt _ (by omega)
    show parseString ('\\' :: 'u' :: '0' :: '0' ::
        hexDig (c.toNat / 16) :: hexDig (c.toNat % 16) :: rest) = _
    rw [parseString_u _ _ hd hm]
    have hc : c.toNat / 16 * 16 + c.toNat % 16 = c.toNat := by omega
    simp only [hc, Char.ofNat_toNat]
  · show parseString (c :: rest) = _
    exact parseString_other c h1 h2 rest

/-- Parsing an escaped body stops exactly at the closing quote and
recovers the body verbatim. -/
theorem parseString_escapeList (l rest : List Char) :
    parseString (escapeList l ++ '"' :: rest) = some (l, rest) := by
  induction l with
  | nil => rfl
  | cons c cs ih =>
    rw [escapeList, List.append_assoc, parseString_escapeChar, ih]
    rfl

/-- Consuming a literal run that is present succeeds and leaves the
tail. -/
theorem dropLit_append (ls cs : List Char) :
    dropLit ls (ls ++ cs) = some cs := by
  induction ls with
  | nil => rfl
  | cons l ls ih => simp [dropLit, ih]

/-- C6: JSON round-trip — serializing any two-string-field invocation
payload with `dumps` and decoding the result with `loads` recovers the
payload exactly, whatever characters its fields contain. -/
theorem claim_C6 (p : Payload) : loads (dumps p) = some p := by
  obtain ⟨m, c⟩ := p
  obtain ⟨ml⟩ := m
  obtain ⟨cl⟩ := c
  show loads (dumps ⟨⟨ml⟩, ⟨cl⟩⟩) = some ⟨⟨ml⟩, ⟨cl⟩⟩
  have hshape : (dumps ⟨⟨ml⟩, ⟨cl⟩⟩).data =
      "\x7b\"message\": \"".data ++ (escapeList ml ++ '"' ::
        (", \"correlationID\": \"".data ++ (escapeList cl ++ '"' ::
          ("\x7d".data ++ [])))) := by
    simp [dumps, encodeString]
  simp only [loads, hshape, dropLit_append, parseString_escapeList]
  rfl

end PyJson
